import Mathlib

/-! # Elements consensus sources: coin control and PSBT blinding

Two parts of `depend/elements/src` are embedded here.

* `wallet/coincontrol.h`: the selection bookkeeping of `CCoinControl`
  (`setSelected`, a `std::set<COutPoint>`, and `m_external_txouts`, a
  `std::map<COutPoint, CTxOut>`), with every inline method that touches them.
* `blindpsbt.h`: the status enumeration and the declared blinding interface.
  The header only declares the functions; their bodies follow the design
  document and are marked as such.
-/

set_option autoImplicit false

/-! ## Ordered containers

`std::set` and `std::map` keep their elements in the order of the key
comparison and locate a key by descending along that order.  They are
embedded as lists walked with the same three-way comparison, so that lookup
and insertion follow one path, as they do in the tree.
-/

namespace StdSet

variable {K : Type} [LinearOrder K]

/-- Number of elements equivalent to `x` (`std::set::count`): 0 or 1. -/
def count (x : K) : List K → Nat
  | [] => 0
  | y :: ys => if x < y then 0 else if y < x then count x ys else 1

/-- Insertion that keeps an equivalent element already present
(`std::set::insert`). -/
def insert (x : K) : List K → List K
  | [] => [x]
  | y :: ys => if x < y then x :: y :: ys else if y < x then y :: insert x ys else y :: ys

/-- Removal of the element equivalent to `x`, if any (`std::set::erase`). -/
def erase (x : K) : List K → List K
  | [] => []
  | y :: ys => if x < y then y :: ys else if y < x then y :: erase x ys else ys

end StdSet

namespace StdMap

variable {K V : Type} [LinearOrder K]

/-- Lookup of a key (`std::map::find`): `none` stands for `end()`. -/
def find (k : K) : List (K × V) → Option V
  | [] => none
  | (k', v') :: rest => if k < k' then none else if k' < k then find k rest else some v'

/-- Number of entries with key `k` (`std::map::count`): 0 or 1. -/
def count (k : K) (m : List (K × V)) : Nat :=
  match find k m with
  | none => 0
  | some _ => 1

/-- Insertion that leaves the map unchanged when the key is already present
(`std::map::emplace`). -/
def emplace (k : K) (v : V) : List (K × V) → List (K × V)
  | [] => [(k, v)]
  | (k', v') :: rest =>
    if k < k' then (k, v) :: (k', v') :: rest
    else if k' < k then (k', v') :: emplace k v rest
    else (k', v') :: rest

end StdMap

/-! ## `CCoinControl` (wallet/coincontrol.h)

`COutPoint` and `CTxOut` are declared in `primitives/transaction.h`; the
class only needs the ordering of outpoints, so both are type parameters.
The public option members are neither read nor written by the methods
below and are left out of the state.
-/

/-- Private members of `CCoinControl`. -/
structure CCoinControl (COutPoint CTxOut : Type) where
  /-- Member `std::set<COutPoint> setSelected`. -/
  setSelected : List COutPoint
  /-- Member `std::map<COutPoint, CTxOut> m_external_txouts`. -/
  m_external_txouts : List (COutPoint × CTxOut)

namespace CCoinControl

variable {COutPoint CTxOut : Type} [LinearOrder COutPoint]

/-- Both containers as default-constructed. -/
def fresh : CCoinControl COutPoint CTxOut := ⟨[], []⟩

/-- Body: `return (setSelected.size() > 0);` -/
def HasSelected (cc : CCoinControl COutPoint CTxOut) : Bool :=
  decide (cc.setSelected.length > 0)

/-- Body: `return (setSelected.count(output) > 0);` -/
def IsSelected (cc : CCoinControl COutPoint CTxOut) (output : COutPoint) : Bool :=
  decide (StdSet.count output cc.setSelected > 0)

/-- Body: `return (m_external_txouts.count(output) > 0);` -/
def IsExternalSelected (cc : CCoinControl COutPoint CTxOut) (output : COutPoint) : Bool :=
  decide (StdMap.count output cc.m_external_txouts > 0)

/-- Lookup of the external txout of an outpoint.  The result is the returned
flag together with the content of the reference argument `txout` after the
call: untouched when the outpoint is not found, the recorded txout
otherwise. -/
def GetExternalOutput (cc : CCoinControl COutPoint CTxOut) (outpoint : COutPoint)
    (txout : CTxOut) : Bool × CTxOut :=
  match StdMap.find outpoint cc.m_external_txouts with
  | none => (false, txout)
  | some ext => (true, ext)

/-- Body: `setSelected.insert(output);` -/
def Select (cc : CCoinControl COutPoint CTxOut) (output : COutPoint) :
    CCoinControl COutPoint CTxOut :=
  { cc with setSelected := StdSet.insert output cc.setSelected }

/-- Body: `setSelected.insert(outpoint); m_external_txouts.emplace(outpoint, txout);` -/
def SelectExternal (cc : CCoinControl COutPoint CTxOut) (outpoint : COutPoint)
    (txout : CTxOut) : CCoinControl COutPoint CTxOut :=
  { setSelected := StdSet.insert outpoint cc.setSelected
    m_external_txouts := StdMap.emplace outpoint txout cc.m_external_txouts }

/-- Body: `setSelected.erase(output);` -/
def UnSelect (cc : CCoinControl COutPoint CTxOut) (output : COutPoint) :
    CCoinControl COutPoint CTxOut :=
  { cc with setSelected := StdSet.erase output cc.setSelected }

/-- Body: `setSelected.clear();` -/
def UnSelectAll (cc : CCoinControl COutPoint CTxOut) : CCoinControl COutPoint CTxOut :=
  { cc with setSelected := [] }

/-- Body: `vOutpoints.assign(setSelected.begin(), setSelected.end());` -/
def ListSelected (cc : CCoinControl COutPoint CTxOut) (_vOutpoints : List COutPoint) :
    List COutPoint :=
  cc.setSelected

end CCoinControl

/-! ## Blinding interface (blindpsbt.h)

The header declares the status enumeration and the signatures of the
blinding functions.  The enumeration is embedded as declared.  The function
bodies, the transaction container and the curve library are not part of the
header; each definition that stands for one of them says so and follows the
design document (sections 3, 4 and 7).
-/

set_option linter.unusedVariables false

/-- The `enum class BlindingStatus`, enumerators in declaration order. -/
inductive BlindingStatus where
  | OK
  | NEEDS_UTXOS
  | INVALID_ASSET
  | INVALID_ASSET_COMMITMENT
  | SCALAR_UNABLE
  | INVALID_BLINDER
  | ASP_UNABLE
  deriving DecidableEq, Repr, Fintype

namespace BlindingStatus

/-- Every enumerator, in declaration order. -/
def all : List BlindingStatus :=
  [OK, NEEDS_UTXOS, INVALID_ASSET, INVALID_ASSET_COMMITMENT, SCALAR_UNABLE, INVALID_BLINDER,
    ASP_UNABLE]

/-- Identifier of an enumerator as written in the header. -/
def ident : BlindingStatus → String
  | OK => "OK"
  | NEEDS_UTXOS => "NEEDS_UTXOS"
  | INVALID_ASSET => "INVALID_ASSET"
  | INVALID_ASSET_COMMITMENT => "INVALID_ASSET_COMMITMENT"
  | SCALAR_UNABLE => "SCALAR_UNABLE"
  | INVALID_BLINDER => "INVALID_BLINDER"
  | ASP_UNABLE => "ASP_UNABLE"

/-- The enumerators other than `OK` (the one commented "No error"). -/
def failures : List BlindingStatus :=
  all.filter (fun s => decide (s ≠ OK))

end BlindingStatus

/-- Modelled from the spec: the error taxonomy of section 7, the six status
names in the order the section lists them. -/
def errorTaxonomy : List String :=
  ["NEEDS_UTXOS", "INVALID_ASSET", "INVALID_ASSET_COMMITMENT", "SCALAR_UNABLE",
    "INVALID_BLINDER", "ASP_UNABLE"]

/-- Order of the secp256k1 group, the modulus of blinder arithmetic. -/
def curveOrder : Nat :=
  0xFFFFFFFFFFFFFFFFFFFFFFFFFFFFFFFEBAAEDCE6AF48A03BBFD25E8CD0364141

/-- A 256-bit value (`uint256`), here a blinder or an identifier. -/
abbrev uint256 := Nat

/-- Signed 64-bit amount (`CAmount`). -/
abbrev CAmount := Int

/-- Byte string (`std::vector<unsigned char>`). -/
abbrev ByteVec := List Nat

/-- Spending script, an uninterpreted byte string. -/
abbrev CScript := ByteVec

/-- Public key, uninterpreted. -/
abbrev CPubKey := Nat

/-- Private key, uninterpreted. -/
abbrev CKey := Nat

/-- Modelled from the spec: `CAsset` of asset.h, "a fixed-length identifier
for a fungible asset type". -/
structure CAsset where
  id : uint256
  deriving DecidableEq, Repr

/-- Modelled from the spec: the 32-byte plaintext asset tag of the curve
library, holding the bytes of an asset identifier. -/
structure rustsecp256k1_v0_4_1_fixed_asset_tag where
  data : uint256
  deriving DecidableEq, Repr

/-- Modelled from the spec: the curve library's asset generator, "an
elliptic-curve point derived from an Asset and its asset Blinder". -/
structure rustsecp256k1_v0_4_1_generator where
  data : ByteVec
  deriving DecidableEq, Repr

/-- Modelled from the spec: the curve library's Pedersen commitment, "an
elliptic-curve point derived from an amount, a value Blinder, and an Asset
Generator". -/
structure rustsecp256k1_v0_4_1_pedersen_commitment where
  data : ByteVec
  deriving DecidableEq, Repr

/-- Modelled from the spec: `CConfidentialAsset` of primitives/confidential.h,
an asset field that is empty, plaintext, or an embedded asset generator. -/
inductive CConfidentialAsset where
  | null
  | explicit (asset : CAsset)
  | commitment (gen : rustsecp256k1_v0_4_1_generator)
  deriving DecidableEq, Repr

/-- Modelled from the spec: `CConfidentialValue` of primitives/confidential.h,
a value field that is empty, plaintext, or an encoded value commitment. -/
inductive CConfidentialValue where
  | null
  | explicit (amount : CAmount)
  | commitment (commit : rustsecp256k1_v0_4_1_pedersen_commitment)
  deriving DecidableEq, Repr

/-- Modelled from the spec: a previous output as the transaction container
exposes it (section 6: "previous-output amount, asset, and committed
value/asset representations"). -/
structure CTxOut where
  nAsset : CConfidentialAsset
  nValue : CConfidentialValue
  scriptPubKey : CScript
  deriving DecidableEq, Repr

/-- Modelled from the spec: an issuance carried by an input, with its two
"virtual outputs" (the asset amount and, if applicable, the reissuance-token
amount) and the fields that receive their blinded form. -/
structure CAssetIssuance where
  asset : CAsset
  amount : CAmount
  token : CAsset
  token_amount : Option CAmount
  conf_amount : CConfidentialValue
  amount_rangeproof : ByteVec
  conf_token_amount : CConfidentialValue
  token_rangeproof : ByteVec
  deriving DecidableEq, Repr

/-- Modelled from the spec: an input of the partially-constructed
transaction; `utxo` is its previous output when the container can resolve
it. -/
structure PSBTInput where
  utxo : Option CTxOut
  issuance : Option CAssetIssuance
  deriving DecidableEq, Repr

/-- Modelled from the spec: an output of the partially-constructed
transaction.  The plaintext amount, asset and script and the optional
blinding public key are read; the confidential-asset, confidential-value,
range-proof and surjection-proof fields (and the published ephemeral key)
are written. -/
structure PSBTOutput where
  amount : CAmount
  asset : CAsset
  scriptPubKey : CScript
  blinding_pubkey : Option CPubKey
  conf_asset : CConfidentialAsset
  conf_value : CConfidentialValue
  ecdh_pubkey : Option CPubKey
  rangeproof : ByteVec
  surjectionproof : ByteVec
  deriving DecidableEq, Repr

/-- Modelled from the spec: `struct PartiallySignedTransaction`, which the
header only forward-declares. -/
structure PartiallySignedTransaction where
  inputs : List PSBTInput
  outputs : List PSBTOutput
  deriving DecidableEq, Repr

/-- The four confidential fields of an output that the blinding pass may
write. -/
def PSBTOutput.confidentialFields (o : PSBTOutput) :
    CConfidentialAsset × CConfidentialValue × ByteVec × ByteVec :=
  (o.conf_asset, o.conf_value, o.rangeproof, o.surjectionproof)

/-- Caller data for one input: `std::tuple<CAmount, CAsset, uint256, uint256>`
(amount, asset, value blinder, asset blinder). -/
abbrev InputData := CAmount × CAsset × uint256 × uint256

/-- Issuance blinding keys for one input: `std::pair<CKey, CKey>`. -/
abbrev IssuanceKeys := CKey × CKey

/-- Modelled from the spec: the consumed capability of section 6, "an
elliptic-curve commitment/proof library exposing: asset-generator derivation,
Pedersen commitment derivation, range-proof creation, surjection-proof
creation, and ECDH point multiplication", a side-effect-free oracle whose
failures are reported (`none`). -/
structure CurveLib where
  generator_generate_blinded : CAsset → uint256 → Option rustsecp256k1_v0_4_1_generator
  pedersen_commit : uint256 → CAmount → rustsecp256k1_v0_4_1_generator →
    Option rustsecp256k1_v0_4_1_pedersen_commitment
  rangeproof_sign : uint256 → uint256 → CAmount → CScript →
    rustsecp256k1_v0_4_1_pedersen_commitment → rustsecp256k1_v0_4_1_generator → CAsset →
    uint256 → Option ByteVec
  surjectionproof_generate : Nat → List rustsecp256k1_v0_4_1_fixed_asset_tag →
    List rustsecp256k1_v0_4_1_generator → List uint256 → uint256 →
    rustsecp256k1_v0_4_1_generator → CAsset → Option ByteVec
  pubkey_create : CKey → CPubKey
  ecdh_nonce : CKey → CPubKey → uint256

/-- Modelled from the spec: the fresh entropy a call draws (section 5), made
explicit.  Each output slot has its own independent value blinder, asset
blinder, ephemeral key and surjection seed. -/
structure Entropy where
  value_blinder : Nat → uint256
  asset_blinder : Nat → uint256
  ephemeral_key : Nat → CKey
  surjection_seed : Nat → Nat

/-! ### Section 4.1: commitment builder -/

/-- Modelled from the spec: body of `CreateAssetCommitment` (section 4.1,
`BuildAssetCommitment`).  The two reference arguments of the declaration,
`conf_asset` and `asset_gen`, carry the results; their contents before the
call are passed in and their contents after it are returned.  The asset
generator is derived by the curve library and embedded in the
confidential-asset field; `none` is the failure of the curve operation. -/
def CreateAssetCommitment (ec : CurveLib) (conf_asset : CConfidentialAsset)
    (asset_gen : rustsecp256k1_v0_4_1_generator) (asset : CAsset) (asset_blinder : uint256) :
    Option (CConfidentialAsset × rustsecp256k1_v0_4_1_generator) :=
  match ec.generator_generate_blinded asset asset_blinder with
  | none => none
  | some gen => some (CConfidentialAsset.commitment gen, gen)

/-- Modelled from the spec: body of `CreateValueCommitment` (section 4.1,
`BuildValueCommitment`), with the reference arguments `conf_value` and
`value_commit` treated as in `CreateAssetCommitment`. -/
def CreateValueCommitment (ec : CurveLib) (conf_value : CConfidentialValue)
    (value_commit : rustsecp256k1_v0_4_1_pedersen_commitment) (value_blinder : uint256)
    (asset_gen : rustsecp256k1_v0_4_1_generator) (amount : CAmount) :
    Option (CConfidentialValue × rustsecp256k1_v0_4_1_pedersen_commitment) :=
  match ec.pedersen_commit value_blinder amount asset_gen with
  | none => none
  | some commit => some (CConfidentialValue.commitment commit, commit)

/-! ### Section 4.2: ECDH nonce -/

/-- Modelled from the spec: body of `GenerateRangeproofECDHKey` (section 4.2,
`DeriveNonce`).  `fresh_key` is the ephemeral private key drawn for this
output; the result is the shared nonce and the ephemeral public key stored
through the reference argument. -/
def GenerateRangeproofECDHKey (ec : CurveLib) (fresh_key : CKey) (blinding_pubkey : CPubKey) :
    uint256 × CPubKey :=
  (ec.ecdh_nonce fresh_key blinding_pubkey, ec.pubkey_create fresh_key)

/-! ### Section 4.3: range proof -/

/-- Modelled from the spec: body of `CreateValueRangeProof` (section 4.3).
The proof is bound to the script, the commitment, the generator and the
asset; `none` stands for a `false` result. -/
def CreateValueRangeProof (ec : CurveLib) (value_blinder : uint256) (nonce : uint256)
    (amount : CAmount) (scriptPubKey : CScript)
    (value_commit : rustsecp256k1_v0_4_1_pedersen_commitment)
    (gen : rustsecp256k1_v0_4_1_generator) (asset : CAsset) (asset_blinder : uint256) :
    Option ByteVec :=
  ec.rangeproof_sign value_blinder nonce amount scriptPubKey value_commit gen asset asset_blinder

/-! ### Section 4.4: surjection proof -/

/-- Modelled from the spec: the candidate inputs of section 4.4, the indices
of `fixed_input_tags` "whose plaintext asset equals the target asset". -/
def surjectionCandidates (fixed_input_tags : List rustsecp256k1_v0_4_1_fixed_asset_tag)
    (asset : CAsset) : List Nat :=
  (List.range fixed_input_tags.length).filter
    (fun i => decide ((fixed_input_tags.get? i).map (fun tag => tag.data) = some asset.id))

/-- Modelled from the spec: body of `CreateAssetSurjectionProof` (section
4.4).  One of the candidate indices is picked with the random `seed`
("selection must be randomized among matches") and the ring proof is built
for it; the call fails when there is no candidate or when the ring-proof
construction fails.  `none` stands for a `false` result with no proof. -/
def CreateAssetSurjectionProof (ec : CurveLib) (seed : Nat)
    (fixed_input_tags : List rustsecp256k1_v0_4_1_fixed_asset_tag)
    (ephemeral_input_tags : List rustsecp256k1_v0_4_1_generator)
    (input_asset_blinders : List uint256) (output_asset_blinder : uint256)
    (output_asset_tag : rustsecp256k1_v0_4_1_generator) (asset : CAsset) : Option ByteVec :=
  match surjectionCandidates fixed_input_tags asset with
  | [] => none
  | c :: cs =>
    ec.surjectionproof_generate ((c :: cs).getD (seed % (cs.length + 1)) c) fixed_input_tags
      ephemeral_input_tags input_asset_blinders output_asset_blinder output_asset_tag asset

/-- Modelled from the spec: how the orchestrator reports the outcome of a
surjection proof (step 7, "failure aborts with `INVALID_ASSET`"). -/
def surjectionStatus : Option ByteVec → Except BlindingStatus ByteVec
  | none => Except.error BlindingStatus.INVALID_ASSET
  | some proof => Except.ok proof

/-! ### Section 4.5: the orchestrator -/

/-- Modelled from the spec: something to blind, a transaction output or a
virtual output of an issuance.  `slot` is the output index (virtual outputs
use the slots after the last output). -/
structure BlindTarget where
  slot : Nat
  amount : CAmount
  asset : CAsset
  scriptPubKey : CScript
  blinding_pubkey : CPubKey
  deriving DecidableEq, Repr

/-- Modelled from the spec: the scratch state of one target during the
pass: its blinders and the fields computed so far. -/
structure Blinded where
  target : BlindTarget
  value_blinder : uint256
  asset_blinder : uint256
  conf_asset : CConfidentialAsset
  asset_gen : rustsecp256k1_v0_4_1_generator
  conf_value : CConfidentialValue
  value_commit : rustsecp256k1_v0_4_1_pedersen_commitment
  ecdh_pubkey : CPubKey
  rangeproof : ByteVec
  surjectionproof : ByteVec
  deriving DecidableEq, Repr

/-- Scratch state of a target that has only been assigned its blinders. -/
def Blinded.start (t : BlindTarget) (value_blinder asset_blinder : uint256) : Blinded :=
  { target := t, value_blinder := value_blinder, asset_blinder := asset_blinder,
    conf_asset := CConfidentialAsset.null, asset_gen := ⟨[]⟩,
    conf_value := CConfidentialValue.null, value_commit := ⟨[]⟩,
    ecdh_pubkey := 0, rangeproof := [], surjectionproof := [] }

/-- Apply a fallible step to every element, stopping at the first failure. -/
def stepAll {α β : Type} (f : α → Except BlindingStatus β) :
    List α → Except BlindingStatus (List β)
  | [] => Except.ok []
  | a :: rest =>
    match f a with
    | Except.error s => Except.error s
    | Except.ok b =>
      match stepAll f rest with
      | Except.error s => Except.error s
      | Except.ok bs => Except.ok (b :: bs)

/-- Modelled from the spec: "amount+asset known" for a previous output. -/
def CTxOut.known (utxo : CTxOut) : Bool :=
  decide (utxo.nAsset ≠ CConfidentialAsset.null) && decide (utxo.nValue ≠ CConfidentialValue.null)

/-- Modelled from the spec: input `i` exists and has "a resolvable previous
output (amount+asset known)". -/
def hasResolvableUTXO (psbt : PartiallySignedTransaction) (i : Nat) : Bool :=
  match psbt.inputs.get? i with
  | none => false
  | some input =>
    match input.utxo with
    | none => false
    | some utxo => utxo.known

/-- Modelled from the spec: step 1, "every input referenced by the caller's
blinding data must have a resolvable previous output". -/
def inputsResolvable (psbt : PartiallySignedTransaction) (our_input_data : List (Nat × InputData)) :
    Bool :=
  our_input_data.all (fun entry => hasResolvableUTXO psbt entry.1)

/-- Modelled from the spec: an output that is "already confidential", its
asset and amount both behind commitments. -/
def PSBTOutput.isConfidential (o : PSBTOutput) : Bool :=
  match o.conf_asset, o.conf_value with
  | CConfidentialAsset.commitment _, CConfidentialValue.commitment _ => true
  | _, _ => false

/-- Modelled from the spec: step 2 over the outputs from index `i` on: "an
output is blindable if it carries a blinding public key and is not already
confidential". -/
def blindableFrom (i : Nat) : List PSBTOutput → List BlindTarget
  | [] => []
  | o :: rest =>
    match o.blinding_pubkey with
    | none => blindableFrom (i + 1) rest
    | some pubkey =>
      if o.isConfidential then blindableFrom (i + 1) rest
      else ⟨i, o.amount, o.asset, o.scriptPubKey, pubkey⟩ :: blindableFrom (i + 1) rest

/-- Modelled from the spec: step 2, the blindable outputs in output order. -/
def blindableOutputs (psbt : PartiallySignedTransaction) : List BlindTarget :=
  blindableFrom 0 psbt.outputs

/-- Modelled from the spec: sum of the value blinders of the caller's inputs
of asset `a`. -/
def inputBlinderSum (our_input_data : List (Nat × InputData)) (a : CAsset) : Int :=
  ((our_input_data.filter (fun entry => decide (entry.2.2.1 = a))).map
    (fun entry => (entry.2.2.2.1 : Int))).sum

/-- Modelled from the spec: sum of the value blinders assigned to the
targets of asset `a`. -/
def outputBlinderSum (blinded : List Blinded) (a : CAsset) : Int :=
  ((blinded.filter (fun b => decide (b.target.asset = a))).map
    (fun b => (b.value_blinder : Int))).sum

/-- Modelled from the spec: the signed sum of value blinders of asset `a`,
"inputs positive, outputs negative". -/
def blinderBalance (our_input_data : List (Nat × InputData)) (blinded : List Blinded)
    (a : CAsset) : Int :=
  inputBlinderSum our_input_data a - outputBlinderSum blinded a

/-- Modelled from the spec: the balancing step, "the unique scalar that makes
the sum of all value blinders (inputs positive, outputs negative, per
matching asset) congruent to zero", given the blinders already assigned. -/
def balancingScalar (our_input_data : List (Nat × InputData)) (others : List Blinded)
    (a : CAsset) : uint256 :=
  (blinderBalance our_input_data others a % (curveOrder : Int)).toNat

/-- Modelled from the spec: step 3 for the targets still to be assigned,
`done` being the targets assigned so far.  Every target gets an independent
random asset blinder.  A target that is followed by another target of its
asset gets an independent random value blinder; the last target of an asset
absorbs the balance of that asset: its value blinder is the balancing scalar
of the asset (section 9: "a running signed sum per asset", solved by "the
additive inverse of that sum").  With one asset this is "all blindable
outputs except the last one found" random and the last computed. -/
def assignFrom (rng : Entropy) (our_input_data : List (Nat × InputData)) :
    List Blinded → List BlindTarget → List Blinded
  | done, [] => done
  | done, t :: rest =>
    assignFrom rng our_input_data
      (done ++
        [Blinded.start t
          (if rest.any (fun u => decide (u.asset = t.asset)) then rng.value_blinder t.slot
            else balancingScalar our_input_data done t.asset)
          (rng.asset_blinder t.slot)])
      rest

/-- Modelled from the spec: the condition of step 3 that the balance of every
asset can be absorbed: each asset of the caller's inputs has a target of
that asset, or its input value blinders already sum to zero modulo the group
order, so that there is no balance to absorb. -/
def balanceAbsorbed (our_input_data : List (Nat × InputData)) (targets : List BlindTarget) :
    Bool :=
  our_input_data.all
    (fun entry =>
      targets.any (fun t => decide (t.asset = entry.2.2.1)) ||
        decide (inputBlinderSum our_input_data entry.2.2.1 % (curveOrder : Int) = 0))

/-- Modelled from the spec: step 3.  With no target at all, or with an asset
whose balance no target can absorb, the step fails with `SCALAR_UNABLE` ("If
no blindable output exists to absorb the balance, fail with
`SCALAR_UNABLE`"); otherwise the blinders are assigned by `assignFrom`, which
makes the signed sum of value blinders of every asset congruent to zero. -/
def assignBlinders (rng : Entropy) (our_input_data : List (Nat × InputData))
    (targets : List BlindTarget) : Except BlindingStatus (List Blinded) :=
  match targets with
  | [] => Except.error BlindingStatus.SCALAR_UNABLE
  | t :: rest =>
    if balanceAbsorbed our_input_data (t :: rest) then
      Except.ok (assignFrom rng our_input_data [] (t :: rest))
    else Except.error BlindingStatus.SCALAR_UNABLE

/-- Modelled from the spec: step 4 for one target, "fail with
`INVALID_ASSET_COMMITMENT` on cryptographic failure". -/
def stepAssetCommitment (ec : CurveLib) (b : Blinded) : Except BlindingStatus Blinded :=
  match CreateAssetCommitment ec b.conf_asset b.asset_gen b.target.asset b.asset_blinder with
  | none => Except.error BlindingStatus.INVALID_ASSET_COMMITMENT
  | some (conf_asset, gen) => Except.ok { b with conf_asset := conf_asset, asset_gen := gen }

/-- Modelled from the spec: step 5 for one target, "fail with
`INVALID_BLINDER` if a blinder is zero or otherwise degenerate". -/
def stepValueCommitment (ec : CurveLib) (b : Blinded) : Except BlindingStatus Blinded :=
  if b.value_blinder = 0 then Except.error BlindingStatus.INVALID_BLINDER
  else
    match CreateValueCommitment ec b.conf_value b.value_commit b.value_blinder b.asset_gen
        b.target.amount with
    | none => Except.error BlindingStatus.INVALID_BLINDER
    | some (conf_value, commit) =>
      Except.ok { b with conf_value := conf_value, value_commit := commit }

/-- Modelled from the spec: step 6 for one target, "derive the ECDH nonce and
produce the range proof per output; any failure aborts with `ASP_UNABLE`". -/
def stepRangeProof (ec : CurveLib) (rng : Entropy) (b : Blinded) : Except BlindingStatus Blinded :=
  match CreateValueRangeProof ec b.value_blinder
      (GenerateRangeproofECDHKey ec (rng.ephemeral_key b.target.slot) b.target.blinding_pubkey).1
      b.target.amount b.target.scriptPubKey b.value_commit b.asset_gen b.target.asset
      b.asset_blinder with
  | none => Except.error BlindingStatus.ASP_UNABLE
  | some proof =>
    Except.ok { b with
      ecdh_pubkey :=
        (GenerateRangeproofECDHKey ec (rng.ephemeral_key b.target.slot) b.target.blinding_pubkey).2
      rangeproof := proof }

/-- Modelled from the spec: step 7 for one target, the surjection proof
"against the full set of transaction input asset generators". -/
def stepSurjectionProof (ec : CurveLib) (rng : Entropy)
    (fixed_input_tags : List rustsecp256k1_v0_4_1_fixed_asset_tag)
    (ephemeral_input_tags : List rustsecp256k1_v0_4_1_generator)
    (input_asset_blinders : List uint256) (b : Blinded) : Except BlindingStatus Blinded :=
  match surjectionStatus (CreateAssetSurjectionProof ec (rng.surjection_seed b.target.slot)
      fixed_input_tags ephemeral_input_tags input_asset_blinders b.asset_blinder b.asset_gen
      b.target.asset) with
  | Except.error s => Except.error s
  | Except.ok proof => Except.ok { b with surjectionproof := proof }

/-- Modelled from the spec: `fixed_input_tags`, "the plaintext assets of
inputs the caller owns". -/
def fixedInputTags (our_input_data : List (Nat × InputData)) :
    List rustsecp256k1_v0_4_1_fixed_asset_tag :=
  our_input_data.map (fun entry => ⟨entry.2.2.1.id⟩)

/-- Modelled from the spec: the asset blinders of the inputs the caller
owns. -/
def inputAssetBlinders (our_input_data : List (Nat × InputData)) : List uint256 :=
  our_input_data.map (fun entry => entry.2.2.2.2)

/-- Modelled from the spec: the public asset generator of a previous output:
the embedded generator of a confidential asset, the unblinded generator of a
plaintext one. -/
def CTxOut.assetGenerator (ec : CurveLib) (utxo : CTxOut) :
    Option rustsecp256k1_v0_4_1_generator :=
  match utxo.nAsset with
  | CConfidentialAsset.null => none
  | CConfidentialAsset.explicit asset => ec.generator_generate_blinded asset 0
  | CConfidentialAsset.commitment gen => some gen

/-- Modelled from the spec: `ephemeral_input_tags`, "the public asset
generators of all inputs (owned and external)" that the container can
supply. -/
def ephemeralInputTags (ec : CurveLib) (psbt : PartiallySignedTransaction) :
    List rustsecp256k1_v0_4_1_generator :=
  psbt.inputs.filterMap (fun input => input.utxo.bind (CTxOut.assetGenerator ec))

/-- Modelled from the spec: steps 3 to 7 over a list of targets, each step
applied to every target before the next one starts and the first failure
returned as the status. -/
def blindTargets (ec : CurveLib) (rng : Entropy) (psbt : PartiallySignedTransaction)
    (our_input_data : List (Nat × InputData)) (targets : List BlindTarget) :
    Except BlindingStatus (List Blinded) :=
  match assignBlinders rng our_input_data targets with
  | Except.error s => Except.error s
  | Except.ok assigned =>
    match stepAll (stepAssetCommitment ec) assigned with
    | Except.error s => Except.error s
    | Except.ok withAsset =>
      match stepAll (stepValueCommitment ec) withAsset with
      | Except.error s => Except.error s
      | Except.ok withValue =>
        match stepAll (stepRangeProof ec rng) withValue with
        | Except.error s => Except.error s
        | Except.ok withRange =>
          stepAll (stepSurjectionProof ec rng (fixedInputTags our_input_data)
            (ephemeralInputTags ec psbt) (inputAssetBlinders our_input_data)) withRange

/-- Modelled from the spec: the "virtual outputs" of the issuance carried by
input `i` (step 8): the issued asset amount, blinded to the first key of the
pair, and, if applicable, the reissuance-token amount, blinded to the second
key.  An input without issuance has none. -/
def issuanceTargets (ec : CurveLib) (psbt : PartiallySignedTransaction) (i : Nat)
    (keys : IssuanceKeys) : List BlindTarget :=
  match psbt.inputs.get? i with
  | none => []
  | some input =>
    match input.issuance with
    | none => []
    | some issuance =>
      ⟨psbt.outputs.length + 2 * i, issuance.amount, issuance.asset, [],
          ec.pubkey_create keys.1⟩ ::
        (match issuance.token_amount with
          | none => []
          | some token_amount =>
            [⟨psbt.outputs.length + 2 * i + 1, token_amount, issuance.token, [],
              ec.pubkey_create keys.2⟩])

/-- Modelled from the spec: step 8 for one entry of `our_issuances_to_blind`:
"for inputs carrying an issuance that the caller wants blinded, repeat steps
3-7 scoped to the issuance's implicit virtual outputs". -/
def blindIssuance (ec : CurveLib) (rng : Entropy) (psbt : PartiallySignedTransaction)
    (our_input_data : List (Nat × InputData)) (entry : Nat × IssuanceKeys) :
    Except BlindingStatus (Nat × List Blinded) :=
  match issuanceTargets ec psbt entry.1 entry.2 with
  | [] => Except.ok (entry.1, [])
  | t :: ts =>
    match blindTargets ec rng psbt our_input_data (t :: ts) with
    | Except.error s => Except.error s
    | Except.ok blinded => Except.ok (entry.1, blinded)

/-- Modelled from the spec: everything the pass has computed once steps 1 to
8 have succeeded; nothing of it is in the transaction yet. -/
structure BlindingResult where
  outputs : List Blinded
  issuances : List (Nat × List Blinded)
  deriving DecidableEq, Repr

/-- Modelled from the spec: steps 1 to 8 of section 4.5, in order, with
"every sub-step failure ... surfaced immediately as the whole call's
status". -/
def blindingPass (ec : CurveLib) (rng : Entropy) (psbt : PartiallySignedTransaction)
    (our_input_data : List (Nat × InputData))
    (our_issuances_to_blind : List (Nat × IssuanceKeys)) :
    Except BlindingStatus BlindingResult :=
  if inputsResolvable psbt our_input_data then
    match blindTargets ec rng psbt our_input_data (blindableOutputs psbt) with
    | Except.error s => Except.error s
    | Except.ok outputs =>
      match stepAll (blindIssuance ec rng psbt our_input_data) our_issuances_to_blind with
      | Except.error s => Except.error s
      | Except.ok issuances => Except.ok ⟨outputs, issuances⟩
  else Except.error BlindingStatus.NEEDS_UTXOS

/-- Replace the element at a position, leaving a list without that position
unchanged. -/
def modifyAt {α : Type} (f : α → α) : Nat → List α → List α
  | _, [] => []
  | 0, a :: rest => f a :: rest
  | n + 1, a :: rest => a :: modifyAt f n rest

/-- Modelled from the spec: the fields of an output after write-back. -/
def PSBTOutput.withBlinding (o : PSBTOutput) (b : Blinded) : PSBTOutput :=
  { o with
    conf_asset := b.conf_asset
    conf_value := b.conf_value
    ecdh_pubkey := some b.ecdh_pubkey
    rangeproof := b.rangeproof
    surjectionproof := b.surjectionproof }

/-- Modelled from the spec: the fields of an issuance after write-back, the
first virtual output being the asset amount and the second the token
amount. -/
def CAssetIssuance.withBlinding (issuance : CAssetIssuance) : List Blinded → CAssetIssuance
  | [] => issuance
  | [a] => { issuance with conf_amount := a.conf_value, amount_rangeproof := a.rangeproof }
  | a :: t :: _ =>
    { issuance with
      conf_amount := a.conf_value
      amount_rangeproof := a.rangeproof
      conf_token_amount := t.conf_value
      token_rangeproof := t.rangeproof }

/-- Modelled from the spec: step 9 for the outputs. -/
def writeOutputs (outputs : List PSBTOutput) (blinded : List Blinded) : List PSBTOutput :=
  blinded.foldl (fun outs b => modifyAt (fun o => o.withBlinding b) b.target.slot outs) outputs

/-- Modelled from the spec: step 9 for the issuances. -/
def writeIssuances (inputs : List PSBTInput) (results : List (Nat × List Blinded)) :
    List PSBTInput :=
  results.foldl
    (fun ins r =>
      modifyAt
        (fun input =>
          { input with issuance := input.issuance.map (fun issuance => issuance.withBlinding r.2) })
        r.1 ins)
    inputs

/-- Modelled from the spec: body of `BlindPSBT` (section 4.5).  The result is
the returned status together with the transaction passed by reference as it
is after the call.  `our_input_data` and `our_issuances_to_blind` are the two
`std::map` arguments as their entries in key order.  The pass is "single
pass, no partial commit": the computed fields are written in step 9 only,
when every earlier step has succeeded. -/
def BlindPSBT (ec : CurveLib) (rng : Entropy) (psbt : PartiallySignedTransaction)
    (our_input_data : List (Nat × InputData))
    (our_issuances_to_blind : List (Nat × IssuanceKeys)) :
    BlindingStatus × PartiallySignedTransaction :=
  match blindingPass ec rng psbt our_input_data our_issuances_to_blind with
  | Except.error s => (s, psbt)
  | Except.ok result =>
    (BlindingStatus.OK,
      { inputs := writeIssuances psbt.inputs result.issuances
        outputs := writeOutputs psbt.outputs result.outputs })

/-! ### Sample data -/

/-- A curve library whose every operation succeeds, with transparent
results. -/
def sampleCurve : CurveLib where
  generator_generate_blinded := fun asset blinder => some ⟨[asset.id, blinder]⟩
  pedersen_commit := fun blinder amount gen => some ⟨blinder :: amount.toNat :: gen.data⟩
  rangeproof_sign := fun _ nonce _ _ _ _ _ _ => some [nonce]
  surjectionproof_generate := fun k _ _ _ _ _ _ => some [k]
  pubkey_create := fun key => key + 1
  ecdh_nonce := fun key pubkey => key + pubkey

/-- A fixed draw of entropy. -/
def sampleEntropy : Entropy where
  value_blinder := fun slot => 11 + slot
  asset_blinder := fun slot => 21 + slot
  ephemeral_key := fun slot => 31 + slot
  surjection_seed := fun slot => slot

/-- A confidential previous output of the given asset and amount, as
`sampleCurve` commits to them with the given blinders. -/
def sampleUTXO (asset : Nat) (amount : Int) (value_blinder asset_blinder : Nat) : CTxOut :=
  ⟨CConfidentialAsset.commitment ⟨[asset, asset_blinder]⟩,
    CConfidentialValue.commitment ⟨[value_blinder, amount.toNat, asset, asset_blinder]⟩, []⟩

/-- An output with empty confidential fields. -/
def sampleOutput (asset : Nat) (amount : Int) (blinding_pubkey : Option CPubKey) : PSBTOutput :=
  ⟨amount, ⟨asset⟩, [], blinding_pubkey, CConfidentialAsset.null, CConfidentialValue.null, none,
    [], []⟩

/-- Two inputs, of assets 1 and 2, and two outputs: the first, of asset 1,
carries a blinding key; the second, of asset 2, stays in plaintext. -/
def sampleTwoAssets : PartiallySignedTransaction where
  inputs := [⟨some (sampleUTXO 1 10 3 4), none⟩, ⟨some (sampleUTXO 2 5 7 8), none⟩]
  outputs := [sampleOutput 1 10 (some 5), sampleOutput 2 5 none]

/-- One input without previous output and one plaintext output without
blinding key. -/
def sampleNoUTXO : PartiallySignedTransaction where
  inputs := [⟨none, none⟩]
  outputs := [sampleOutput 1 10 none]

/-- Caller data that refers to input 0. -/
def sampleInputZero : List (Nat × InputData) :=
  [(0, (10, ⟨1⟩, 3, 4))]

/-- What the balance is computed from: the target and its value blinder. -/
def Blinded.key (b : Blinded) : BlindTarget × uint256 :=
  (b.target, b.value_blinder)

/-- One input with a previous output and one plaintext output without
blinding key. -/
def samplePlain : PartiallySignedTransaction where
  inputs := [⟨some (sampleUTXO 1 10 3 4), none⟩]
  outputs := [sampleOutput 1 10 none]

namespace StdSet

variable {K : Type} [LinearOrder K]

theorem count_insert_self (x : K) (s : List K) : count x (insert x s) = 1 := by
  induction s with
  | nil => simp [insert, count]
  | cons y ys ih =>
    unfold insert
    by_cases h1 : x < y
    · simp [h1, count]
    · by_cases h2 : y < x
      · simp [h1, h2, count, ih]
      · simp [h1, h2, count]

theorem mem_insert (x z : K) (s : List K) (h : z ∈ insert x s) : z = x ∨ z ∈ s := by
  induction s with
  | nil =>
    simp only [insert, List.mem_singleton] at h
    exact Or.inl h
  | cons y ys ih =>
    unfold insert at h
    by_cases h1 : x < y
    · simp only [h1, if_true, List.mem_cons] at h
      rcases h with h | h | h
      · exact Or.inl h
      · exact Or.inr (by simp [h])
      · exact Or.inr (by simp [h])
    · by_cases h2 : y < x
      · simp only [h1, h2, if_true, if_false, List.mem_cons] at h
        rcases h with h | h
        · exact Or.inr (by simp [h])
        · rcases ih h with h | h
          · exact Or.inl h
          · exact Or.inr (by simp [h])
      · simp only [h1, h2, if_false] at h
        exact Or.inr h

/-- Insertion keeps the elements strictly increasing, as `std::set` requires. -/
theorem insert_sorted (x : K) (s : List K) (hs : s.Pairwise (fun a b => a < b)) :
    (insert x s).Pairwise (fun a b => a < b) := by
  induction s with
  | nil => simp [insert]
  | cons y ys ih =>
    have hy : ∀ z ∈ ys, y < z := (List.pairwise_cons.mp hs).1
    have hys : ys.Pairwise (fun a b => a < b) := (List.pairwise_cons.mp hs).2
    unfold insert
    by_cases h1 : x < y
    · simp only [h1, if_true]
      refine List.pairwise_cons.mpr ⟨?_, hs⟩
      intro z hz
      rcases List.mem_cons.mp hz with hz | hz
      · rw [hz]; exact h1
      · exact lt_trans h1 (hy z hz)
    · by_cases h2 : y < x
      · simp only [h1, h2, if_true, if_false]
        refine List.pairwise_cons.mpr ⟨?_, ih hys⟩
        intro z hz
        rcases mem_insert x z ys hz with hz | hz
        · rw [hz]; exact h2
        · exact hy z hz
      · simp only [h1, h2, if_false]
        exact hs

end StdSet

namespace StdMap

variable {K V : Type} [LinearOrder K]

theorem find_emplace_self (k : K) (v : V) (m : List (K × V)) :
    find k (emplace k v m) = some ((find k m).getD v) := by
  induction m with
  | nil => simp [emplace, find]
  | cons e rest ih =>
    obtain ⟨k', v'⟩ := e
    unfold emplace
    by_cases h1 : k < k'
    · simp [h1, find]
    · by_cases h2 : k' < k
      · simp [h1, h2, find, ih]
      · simp [h1, h2, find]

theorem mem_emplace (k : K) (v : V) (e : K × V) (m : List (K × V)) (h : e ∈ emplace k v m) :
    e = (k, v) ∨ e ∈ m := by
  induction m with
  | nil =>
    simp only [emplace, List.mem_singleton] at h
    exact Or.inl h
  | cons e' rest ih =>
    obtain ⟨k', v'⟩ := e'
    unfold emplace at h
    by_cases h1 : k < k'
    · simp only [h1, if_true, List.mem_cons] at h
      rcases h with h | h | h
      · exact Or.inl h
      · exact Or.inr (by simp [h])
      · exact Or.inr (by simp [h])
    · by_cases h2 : k' < k
      · simp only [h1, h2, if_true, if_false, List.mem_cons] at h
        rcases h with h | h
        · exact Or.inr (by simp [h])
        · rcases ih h with h | h
          · exact Or.inl h
          · exact Or.inr (by simp [h])
      · simp only [h1, h2, if_false] at h
        exact Or.inr h

/-- Insertion keeps the keys strictly increasing, as `std::map` requires. -/
theorem emplace_sorted (k : K) (v : V) (m : List (K × V))
    (hm : m.Pairwise (fun a b => a.1 < b.1)) :
    (emplace k v m).Pairwise (fun a b => a.1 < b.1) := by
  induction m with
  | nil => simp [emplace]
  | cons e rest ih =>
    obtain ⟨k', v'⟩ := e
    have he : ∀ z ∈ rest, k' < z.1 := (List.pairwise_cons.mp hm).1
    have hrest : rest.Pairwise (fun a b => a.1 < b.1) := (List.pairwise_cons.mp hm).2
    unfold emplace
    by_cases h1 : k < k'
    · simp only [h1, if_true]
      refine List.pairwise_cons.mpr ⟨?_, hm⟩
      intro z hz
      rcases List.mem_cons.mp hz with hz | hz
      · rw [hz]; exact h1
      · exact lt_trans h1 (he z hz)
    · by_cases h2 : k' < k
      · simp only [h1, h2, if_true, if_false]
        refine List.pairwise_cons.mpr ⟨?_, ih hrest⟩
        intro z hz
        rcases mem_emplace k v z rest hz with hz | hz
        · rw [hz]; exact h2
        · exact he z hz
      · simp only [h1, h2, if_false]
        exact hm

/-- On a map with increasing keys the lookup finds exactly the entries of the
map. -/
theorem find_eq_some_iff (k : K) (v : V) (m : List (K × V))
    (hm : m.Pairwise (fun a b => a.1 < b.1)) : find k m = some v ↔ (k, v) ∈ m := by
  induction m with
  | nil => simp [find]
  | cons e rest ih =>
    obtain ⟨k', v'⟩ := e
    have he : ∀ z ∈ rest, k' < z.1 := (List.pairwise_cons.mp hm).1
    have hrest : rest.Pairwise (fun a b => a.1 < b.1) := (List.pairwise_cons.mp hm).2
    unfold find
    by_cases h1 : k < k'
    · simp only [h1, if_true, List.mem_cons, Prod.mk.injEq]
      constructor
      · intro h; cases h
      · intro h
        rcases h with h | h
        · exact absurd h.1 (ne_of_lt h1)
        · exact absurd (lt_trans h1 (he _ h)) (lt_irrefl k)
    · by_cases h2 : k' < k
      · simp only [h1, h2, if_true, if_false, List.mem_cons, Prod.mk.injEq]
        rw [ih hrest]
        constructor
        · intro h; exact Or.inr h
        · intro h
          rcases h with h | h
          · exact absurd h.1 (ne_of_gt h2)
          · exact h
      · have hk : k = k' := le_antisymm (not_lt.mp h2) (not_lt.mp h1)
        simp only [h1, h2, if_false, List.mem_cons, Prod.mk.injEq, Option.some.injEq]
        constructor
        · intro h; exact Or.inl ⟨hk, h.symm⟩
        · intro h
          rcases h with h | h
          · exact h.2.symm
          · exact absurd (he _ h) (by simp [hk])

end StdMap

/-! ## Lemmas on the blinding pass -/

theorem assignBlinders_nil (rng : Entropy) (data : List (Nat × InputData)) :
    assignBlinders rng data [] = Except.error BlindingStatus.SCALAR_UNABLE := by
  simp [assignBlinders]

theorem blindableFrom_no_key (outputs : List PSBTOutput)
    (h : ∀ o ∈ outputs, o.blinding_pubkey = none) : ∀ i, blindableFrom i outputs = [] := by
  induction outputs with
  | nil => intro i; rfl
  | cons o rest ih =>
    intro i
    have ho : o.blinding_pubkey = none := h o (List.mem_cons_self o rest)
    have hrest : ∀ o' ∈ rest, o'.blinding_pubkey = none :=
      fun o' ho' => h o' (List.mem_cons_of_mem o ho')
    unfold blindableFrom
    rw [ho]
    exact ih hrest (i + 1)

theorem surjectionCandidates_no_match
    (fixed_input_tags : List rustsecp256k1_v0_4_1_fixed_asset_tag) (asset : CAsset)
    (h : ∀ tag ∈ fixed_input_tags, tag.data ≠ asset.id) :
    surjectionCandidates fixed_input_tags asset = [] := by
  unfold surjectionCandidates
  rw [List.filter_eq_nil_iff]
  intro i _ hi
  simp only [decide_eq_true_eq, Option.map_eq_some'] at hi
  obtain ⟨tag, hget, hdata⟩ := hi
  exact h tag (List.get?_mem hget) hdata

/-! ## The blinding interface: claims C1 to C6 -/

/-- C2: when `BlindPSBT` returns a status other than `OK`, the transaction
passed by reference is what it was before the call; in particular the
confidential-asset, confidential-value, range-proof and surjection-proof
fields of every output are unchanged. -/
theorem BlindPSBT_failure_leaves_transaction (ec : CurveLib) (rng : Entropy)
    (psbt : PartiallySignedTransaction) (our_input_data : List (Nat × InputData))
    (our_issuances_to_blind : List (Nat × IssuanceKeys))
    (h : (BlindPSBT ec rng psbt our_input_data our_issuances_to_blind).1 ≠ BlindingStatus.OK) :
    (BlindPSBT ec rng psbt our_input_data our_issuances_to_blind).2 = psbt ∧
      (BlindPSBT ec rng psbt our_input_data our_issuances_to_blind).2.outputs.map
          PSBTOutput.confidentialFields =
        psbt.outputs.map PSBTOutput.confidentialFields := by
  have hsame : (BlindPSBT ec rng psbt our_input_data our_issuances_to_blind).2 = psbt := by
    unfold BlindPSBT at h ⊢
    cases hp : blindingPass ec rng psbt our_input_data our_issuances_to_blind with
    | error s => rfl
    | ok result =>
      rw [hp] at h
      exact absurd rfl h
  exact ⟨hsame, by rw [hsame]⟩

/-- C2 at a call that fails in step 5, after the asset commitments have been
computed. -/
theorem BlindPSBT_failure_leaves_transaction_witness :
    (BlindPSBT sampleCurve sampleEntropy sampleTwoAssets [(1, (5, ⟨2⟩, 0, 8))] []).1 =
        BlindingStatus.INVALID_BLINDER ∧
      (BlindPSBT sampleCurve sampleEntropy sampleTwoAssets [(1, (5, ⟨2⟩, 0, 8))] []).2 =
        sampleTwoAssets ∧
      (BlindPSBT sampleCurve sampleEntropy sampleTwoAssets [(1, (5, ⟨2⟩, 0, 8))] []).2.outputs.map
          PSBTOutput.confidentialFields =
        sampleTwoAssets.outputs.map PSBTOutput.confidentialFields :=
  ⟨by decide,
    BlindPSBT_failure_leaves_transaction sampleCurve sampleEntropy sampleTwoAssets
      [(1, (5, ⟨2⟩, 0, 8))] [] (by decide)⟩

/-- C3, as stated, fails: no output of the transaction carries a blinding
key, the caller's data refers to input 0, which has no previous output, and
`BlindPSBT` returns `NEEDS_UTXOS`, not `SCALAR_UNABLE`. -/
theorem BlindPSBT_no_key_missing_utxo :
    (∀ o ∈ sampleNoUTXO.outputs, o.blinding_pubkey = none) ∧
      (BlindPSBT sampleCurve sampleEntropy sampleNoUTXO sampleInputZero []).1 =
        BlindingStatus.NEEDS_UTXOS ∧
      (BlindPSBT sampleCurve sampleEntropy sampleNoUTXO sampleInputZero []).1 ≠
        BlindingStatus.SCALAR_UNABLE := by
  refine ⟨by decide, by decide, by decide⟩

/-- C3, amended: when no output carries a blinding public key and every
input index in the caller's data has a resolvable previous output,
`BlindPSBT` returns `SCALAR_UNABLE`, whatever the issuance keys. -/
theorem BlindPSBT_no_key_scalar_unable (ec : CurveLib) (rng : Entropy)
    (psbt : PartiallySignedTransaction) (our_input_data : List (Nat × InputData))
    (our_issuances_to_blind : List (Nat × IssuanceKeys))
    (hkeys : ∀ o ∈ psbt.outputs, o.blinding_pubkey = none)
    (hutxo : ∀ entry ∈ our_input_data, hasResolvableUTXO psbt entry.1 = true) :
    (BlindPSBT ec rng psbt our_input_data our_issuances_to_blind).1 =
      BlindingStatus.SCALAR_UNABLE := by
  have hres : inputsResolvable psbt our_input_data = true := by
    unfold inputsResolvable
    exact List.all_eq_true.mpr hutxo
  have hnone : blindableOutputs psbt = [] := blindableFrom_no_key psbt.outputs hkeys 0
  simp [BlindPSBT, blindingPass, hres, hnone, blindTargets, assignBlinders_nil]

/-- C3, amended, at a transaction whose only input is resolvable and whose
only output has no blinding key. -/
theorem BlindPSBT_no_key_scalar_unable_witness :
    (∀ o ∈ samplePlain.outputs, o.blinding_pubkey = none) ∧
      (∀ entry ∈ sampleInputZero, hasResolvableUTXO samplePlain entry.1 = true) ∧
      (BlindPSBT sampleCurve sampleEntropy samplePlain sampleInputZero [(0, (1, 2))]).1 =
        BlindingStatus.SCALAR_UNABLE :=
  ⟨by decide, by decide,
    BlindPSBT_no_key_scalar_unable sampleCurve sampleEntropy samplePlain sampleInputZero
      [(0, (1, 2))] (by decide) (by decide)⟩

/-- C4: when `our_input_data` has a key for which the transaction has no
resolvable previous output, `BlindPSBT` returns `NEEDS_UTXOS`. -/
theorem BlindPSBT_missing_utxo (ec : CurveLib) (rng : Entropy)
    (psbt : PartiallySignedTransaction) (our_input_data : List (Nat × InputData))
    (our_issuances_to_blind : List (Nat × IssuanceKeys)) (i : Nat) (data : InputData)
    (hkey : (i, data) ∈ our_input_data) (hutxo : hasResolvableUTXO psbt i = false) :
    (BlindPSBT ec rng psbt our_input_data our_issuances_to_blind).1 =
      BlindingStatus.NEEDS_UTXOS := by
  have hres : inputsResolvable psbt our_input_data = false := by
    unfold inputsResolvable
    rw [List.all_eq_false]
    exact ⟨(i, data), hkey, by simp [hutxo]⟩
  simp [BlindPSBT, blindingPass, hres]

/-- C4 at a transaction whose input 0 has no previous output. -/
theorem BlindPSBT_missing_utxo_witness :
    (0, ((10, ⟨1⟩, 3, 4) : InputData)) ∈ sampleInputZero ∧
      hasResolvableUTXO sampleNoUTXO 0 = false ∧
      (BlindPSBT sampleCurve sampleEntropy sampleNoUTXO sampleInputZero []).1 =
        BlindingStatus.NEEDS_UTXOS :=
  ⟨by decide, by decide,
    BlindPSBT_missing_utxo sampleCurve sampleEntropy sampleNoUTXO sampleInputZero [] 0
      (10, ⟨1⟩, 3, 4) (by decide) (by decide)⟩

/-- C5: `BlindingStatus` has exactly seven pairwise distinct values, `OK`
and six failure values whose identifiers are the six entries of the error
taxonomy, and every result of `BlindPSBT` is one of the seven. -/
theorem BlindingStatus_closed_set :
    BlindingStatus.all.length = 7 ∧
      BlindingStatus.all.Nodup ∧
      (BlindingStatus.all.map BlindingStatus.ident).Nodup ∧
      (∀ s : BlindingStatus, s ∈ BlindingStatus.all) ∧
      Fintype.card BlindingStatus = 7 ∧
      BlindingStatus.all = BlindingStatus.OK :: BlindingStatus.failures ∧
      BlindingStatus.failures.map BlindingStatus.ident = errorTaxonomy ∧
      (∀ (ec : CurveLib) (rng : Entropy) (psbt : PartiallySignedTransaction)
        (our_input_data : List (Nat × InputData))
        (our_issuances_to_blind : List (Nat × IssuanceKeys)),
        (BlindPSBT ec rng psbt our_input_data our_issuances_to_blind).1 ∈ BlindingStatus.all) := by
  have hall : ∀ s : BlindingStatus, s ∈ BlindingStatus.all := by
    intro s
    cases s <;> decide
  exact ⟨by decide, by decide, by decide, hall, by decide, by decide, by decide,
    fun _ _ _ _ _ => hall _⟩

/-- C6: when no entry of `fixed_input_tags` equals the target asset,
`CreateAssetSurjectionProof` produces no proof and the failure is reported
as `INVALID_ASSET`. -/
theorem CreateAssetSurjectionProof_no_match (ec : CurveLib) (seed : Nat)
    (fixed_input_tags : List rustsecp256k1_v0_4_1_fixed_asset_tag)
    (ephemeral_input_tags : List rustsecp256k1_v0_4_1_generator)
    (input_asset_blinders : List uint256) (output_asset_blinder : uint256)
    (output_asset_tag : rustsecp256k1_v0_4_1_generator) (asset : CAsset)
    (h : ∀ tag ∈ fixed_input_tags, tag.data ≠ asset.id) :
    CreateAssetSurjectionProof ec seed fixed_input_tags ephemeral_input_tags
        input_asset_blinders output_asset_blinder output_asset_tag asset = none ∧
      surjectionStatus
          (CreateAssetSurjectionProof ec seed fixed_input_tags ephemeral_input_tags
            input_asset_blinders output_asset_blinder output_asset_tag asset) =
        Except.error BlindingStatus.INVALID_ASSET := by
  have hnone : CreateAssetSurjectionProof ec seed fixed_input_tags ephemeral_input_tags
      input_asset_blinders output_asset_blinder output_asset_tag asset = none := by
    unfold CreateAssetSurjectionProof
    rw [surjectionCandidates_no_match fixed_input_tags asset h]
  exact ⟨hnone, by rw [hnone]; rfl⟩

/-- C6 at input assets 1 and 2 and target asset 3. -/
theorem CreateAssetSurjectionProof_no_match_witness :
    (∀ tag ∈ ([⟨1⟩, ⟨2⟩] : List rustsecp256k1_v0_4_1_fixed_asset_tag), tag.data ≠ (⟨3⟩ : CAsset).id) ∧
      CreateAssetSurjectionProof sampleCurve 0 [⟨1⟩, ⟨2⟩] [⟨[1, 4]⟩, ⟨[2, 8]⟩] [4, 8] 9 ⟨[3, 9]⟩
          ⟨3⟩ = none ∧
      surjectionStatus
          (CreateAssetSurjectionProof sampleCurve 0 [⟨1⟩, ⟨2⟩] [⟨[1, 4]⟩, ⟨[2, 8]⟩] [4, 8] 9
            ⟨[3, 9]⟩ ⟨3⟩) =
        Except.error BlindingStatus.INVALID_ASSET :=
  ⟨by decide,
    CreateAssetSurjectionProof_no_match sampleCurve 0 [⟨1⟩, ⟨2⟩] [⟨[1, 4]⟩, ⟨[2, 8]⟩] [4, 8] 9
      ⟨[3, 9]⟩ ⟨3⟩ (by decide)⟩

/-! ## `CCoinControl`: claims C8 to C10 -/

/-- C8, as stated, fails: outpoint 1 is recorded with txout 10; after
`SelectExternal(1, 20)` the call `GetExternalOutput(1, out)` sets `out` to
10, not to 20. -/
theorem SelectExternal_keeps_recorded_txout :
    CCoinControl.GetExternalOutput
        (CCoinControl.SelectExternal
          (CCoinControl.SelectExternal (CCoinControl.fresh : CCoinControl Nat Nat) 1 10) 1 20)
        1 0 = (true, 10) ∧
      CCoinControl.GetExternalOutput
        (CCoinControl.SelectExternal
          (CCoinControl.SelectExternal (CCoinControl.fresh : CCoinControl Nat Nat) 1 10) 1 20)
        1 0 ≠ (true, 20) := by
  refine ⟨by decide, by decide⟩

/-- C8, amended: after `SelectExternal(o, t)`, `IsSelected(o)` and
`IsExternalSelected(o)` are true and `GetExternalOutput(o, out)` returns true;
it sets `out` to `t` when no external txout was recorded for `o` before the
call and to the txout already recorded for `o` otherwise. -/
theorem SelectExternal_then_GetExternalOutput {COutPoint CTxOut : Type} [LinearOrder COutPoint]
    (cc : CCoinControl COutPoint CTxOut) (o : COutPoint) (t out : CTxOut) :
    (cc.SelectExternal o t).IsSelected o = true ∧
      (cc.SelectExternal o t).IsExternalSelected o = true ∧
      (cc.SelectExternal o t).GetExternalOutput o out =
        (true, (StdMap.find o cc.m_external_txouts).getD t) := by
  refine ⟨?_, ?_, ?_⟩
  · simp [CCoinControl.IsSelected, CCoinControl.SelectExternal, StdSet.count_insert_self]
  · simp [CCoinControl.IsExternalSelected, CCoinControl.SelectExternal, StdMap.count,
      StdMap.find_emplace_self]
  · simp [CCoinControl.GetExternalOutput, CCoinControl.SelectExternal, StdMap.find_emplace_self]

/-- C9: after `UnSelectAll()`, `HasSelected()` is false and `IsSelected(o)` is
false for every outpoint, while `IsExternalSelected(o)` and the result and
output of `GetExternalOutput(o, out)` are what they were before the call. -/
theorem UnSelectAll_clears_selection_only {COutPoint CTxOut : Type} [LinearOrder COutPoint]
    (cc : CCoinControl COutPoint CTxOut) (o : COutPoint) (out : CTxOut) :
    cc.UnSelectAll.HasSelected = false ∧
      cc.UnSelectAll.IsSelected o = false ∧
      cc.UnSelectAll.IsExternalSelected o = cc.IsExternalSelected o ∧
      cc.UnSelectAll.GetExternalOutput o out = cc.GetExternalOutput o out ∧
      cc.UnSelectAll.m_external_txouts = cc.m_external_txouts := by
  refine ⟨?_, ?_, rfl, rfl, rfl⟩
  · simp [CCoinControl.HasSelected, CCoinControl.UnSelectAll]
  · simp [CCoinControl.IsSelected, CCoinControl.UnSelectAll, StdSet.count]

/-- C10: `GetExternalOutput(o, out)` returns true if and only if
`IsExternalSelected(o)` is true, and when it returns false the caller's `out`
is left unchanged. -/
theorem GetExternalOutput_iff_IsExternalSelected {COutPoint CTxOut : Type}
    [LinearOrder COutPoint] (cc : CCoinControl COutPoint CTxOut) (o : COutPoint)
    (out : CTxOut) :
    ((cc.GetExternalOutput o out).1 = true ↔ cc.IsExternalSelected o = true) ∧
      ((cc.GetExternalOutput o out).1 = false → (cc.GetExternalOutput o out).2 = out) := by
  unfold CCoinControl.GetExternalOutput CCoinControl.IsExternalSelected StdMap.count
  cases StdMap.find o cc.m_external_txouts with
  | none => simp
  | some ext => simp

/-- C10 at a state that records an external txout for outpoint 1 only: the
lookup of outpoint 2 returns false and leaves `out` as it was. -/
theorem GetExternalOutput_iff_IsExternalSelected_witness :
    (CCoinControl.GetExternalOutput
        (CCoinControl.SelectExternal (CCoinControl.fresh : CCoinControl Nat Nat) 1 10) 2 7).1 =
        false ∧
      (CCoinControl.GetExternalOutput
        (CCoinControl.SelectExternal (CCoinControl.fresh : CCoinControl Nat Nat) 1 10) 2 7).2 =
        7 :=
  ⟨by decide,
    (GetExternalOutput_iff_IsExternalSelected
      (CCoinControl.SelectExternal (CCoinControl.fresh : CCoinControl Nat Nat) 1 10) 2 7).2
      (by decide)⟩
